import Mathlib

/-
Shallow embedding of the todo CRUD service in src/main.py.

Modelling conventions:
- A Mongo document of the `todo` collection is a record of `Option`-valued
  fields; `none` models the key being absent from the document.  (On the
  paths reachable from the handlers, a field stored as JSON null and an
  absent field are serialized identically, so the two are conflated.)
- A BSON ObjectId is modelled by its 24-character hexadecimal string form;
  `isValidObjectId` is the parse-success predicate of `bson.ObjectId`.
- Timestamps (`datetime.utcnow()`) are modelled as natural numbers supplied
  to the handlers as an explicit `now` argument.
- The global database handle `db` is `Option DB`: `none` models the handle
  being absent (unconfigured).  Handlers are state-passing functions
  returning the HTTP outcome together with the post-request store.
- `raise HTTPException(status_code, detail)` is modelled by `Resp.err`.
-/

namespace TodoApp

/-- `bson.ObjectId` accepts a string iff it is a 24-character hex string. -/
def isValidObjectId (s : String) : Bool :=
  s.length == 24 &&
    s.toList.all (fun c =>
      c.isDigit || ('a' ≤ c && c ≤ 'f') || ('A' ≤ c && c ≤ 'F'))

/-- A stored document of the `todo` collection.  `oid` models the `_id` key
(the ObjectId in its string form); every field is `none` when the key is
absent from the document. -/
structure Doc where
  oid : Option String
  title : Option String
  description : Option String
  completed : Option Bool
  priority : Option Int
  created_at : Option Nat
  updated_at : Option Nat
deriving DecidableEq

/-- Python truthiness of the document dict: `not doc` holds for an empty
dict (no keys present). -/
def Doc.isEmptyDoc (d : Doc) : Bool :=
  d.oid.isNone && d.title.isNone && d.description.isNone &&
    d.completed.isNone && d.priority.isNone && d.created_at.isNone &&
    d.updated_at.isNone

/-- The wire response shape of a serialized todo (main.py, serialize_todo). -/
structure SerTodo where
  id : String
  title : Option String
  description : Option String
  completed : Bool
  priority : Int
  created_at : Option Nat
  updated_at : Option Nat
deriving DecidableEq

/-- The value returned by `serialize_todo`: either the empty dict or a
full todo object. -/
inductive Ser where
  | empty : Ser
  | obj : SerTodo → Ser
deriving DecidableEq

/-- `str(doc.get("_id"))`: Python renders `None` as the string "None",
and `str` of an ObjectId is its hex string. -/
def strOfOptId : Option String → String
  | some s => s
  | none => "None"

/-- main.py, `serialize_todo`: `{}` on a falsy doc, otherwise the response
dict with `completed` defaulting to `False` and `priority` to `2`. -/
def serialize_todo (doc : Option Doc) : Ser :=
  match doc with
  | none => .empty
  | some d =>
    if d.isEmptyDoc then .empty
    else .obj {
      id := strOfOptId d.oid
      title := d.title
      description := d.description
      completed := d.completed.getD false
      priority := d.priority.getD 2
      created_at := d.created_at
      updated_at := d.updated_at }

/-- The `id` key of a serialized value, when one is present. -/
def Ser.idOf : Ser → Option String
  | .empty => none
  | .obj s => some s.id

/-- The `todo` collection: stored documents in insertion order. -/
structure DB where
  todos : List Doc
deriving DecidableEq

/-- Pydantic model `TodoCreate` (main.py lines 21-25) after validation:
`title` required; `description` defaults to `None`; `completed` defaults to
`False`; `priority` is `Optional[int]` defaulting to `2`. -/
structure TodoCreate where
  title : String
  description : Option String := none
  completed : Bool := false
  priority : Option Int := some 2
deriving DecidableEq

/-- Pydantic model `TodoUpdate` (main.py lines 27-31): every field optional,
defaulting to `None`. -/
structure TodoUpdate where
  title : Option String := none
  description : Option String := none
  completed : Option Bool := none
  priority : Option Int := none
deriving DecidableEq

/-- `payload.model_dump(exclude_none=True)` is the empty dict: every field
is unset or null. -/
def TodoUpdate.dumpIsEmpty (u : TodoUpdate) : Bool :=
  u.title.isNone && u.description.isNone && u.completed.isNone &&
    u.priority.isNone

/-- `db[COLLECTION].find_one({"_id": oid})`: first document whose `_id`
equals the given ObjectId. -/
def find_one (l : List Doc) (tid : String) : Option Doc :=
  match l with
  | [] => none
  | d :: rest => if d.oid = some tid then some d else find_one rest tid

/-- The `$set` document built by `update_todo`: the non-null payload fields
together with `updated_at = now`, merged into a stored document. -/
def applySet (u : TodoUpdate) (now : Nat) (d : Doc) : Doc :=
  { d with
    title := match u.title with | some v => some v | none => d.title
    description := match u.description with | some v => some v | none => d.description
    completed := match u.completed with | some v => some v | none => d.completed
    priority := match u.priority with | some v => some v | none => d.priority
    updated_at := some now }

/-- `db[COLLECTION].update_one({"_id": oid}, {"$set": update_data})`:
applies the `$set` to the first matching document; returns the matched
count and the resulting collection. -/
def update_one (l : List Doc) (tid : String) (u : TodoUpdate) (now : Nat) :
    Nat × List Doc :=
  match l with
  | [] => (0, [])
  | d :: rest =>
    if d.oid = some tid then (1, applySet u now d :: rest)
    else
      let r := update_one rest tid u now
      (r.1, d :: r.2)

/-- `db[COLLECTION].delete_one({"_id": oid})`: removes the first matching
document; returns the deleted count and the resulting collection. -/
def delete_one (l : List Doc) (tid : String) : Nat × List Doc :=
  match l with
  | [] => (0, [])
  | d :: rest =>
    if d.oid = some tid then (1, rest)
    else
      let r := delete_one rest tid
      (r.1, d :: r.2)

/-- Modelled from the spec: `schemas.Todo` together with
`database.create_document` (files schemas.py and database.py are not under
src/).  Per the spec, create "constructs a new entity with server-assigned
`id` and `created_at`, delegates insertion" — the inserted document carries
the payload fields, the store-assigned `_id`, the creation timestamp, and
no `updated_at`; the assigned id is returned. -/
def create_document (l : List Doc) (p : TodoCreate) (now : Nat)
    (newId : String) : String × List Doc :=
  (newId,
   l ++ [{ oid := some newId, title := some p.title,
           description := p.description, completed := some p.completed,
           priority := p.priority, created_at := some now,
           updated_at := none }])

/-- Modelled from the spec: `database.get_documents` (database.py is not
under src/).  Find-many over the collection with an empty filter: returns
every stored entity in the store's natural order. -/
def get_documents (l : List Doc) : List Doc := l

/-- Outcome of a handler: a 200 body, or an `HTTPException` with status
code and detail message. -/
inductive Resp (α : Type) where
  | ok : α → Resp α
  | err : Nat → String → Resp α
deriving DecidableEq

/-- main.py, `create_todo` (POST /api/todos). -/
def create_todo (db : Option DB) (payload : TodoCreate) (now : Nat)
    (newId : String) : Resp Ser × Option DB :=
  match db with
  | none => (.err 500 "Database not configured", none)
  | some st =>
    let r := create_document st.todos payload now newId
    let doc := find_one r.2 r.1
    (.ok (serialize_todo doc), some ⟨r.2⟩)

/-- main.py, `list_todos` (GET /api/todos). -/
def list_todos (db : Option DB) : Resp (List Ser) × Option DB :=
  match db with
  | none => (.err 500 "Database not configured", none)
  | some st =>
    (.ok ((get_documents st.todos).map (fun d => serialize_todo (some d))),
     some st)

/-- main.py, `update_todo` (PATCH /api/todos/{todo_id}). -/
def update_todo (db : Option DB) (todo_id : String) (payload : TodoUpdate)
    (now : Nat) : Resp Ser × Option DB :=
  match db with
  | none => (.err 500 "Database not configured", none)
  | some st =>
    if ¬ isValidObjectId todo_id then (.err 400 "Invalid ID", some st)
    else if payload.dumpIsEmpty then (.err 400 "No fields to update", some st)
    else
      let r := update_one st.todos todo_id payload now
      if r.1 = 0 then (.err 404 "Todo not found", some st)
      else (.ok (serialize_todo (find_one r.2 todo_id)), some ⟨r.2⟩)

/-- main.py, `delete_todo` (DELETE /api/todos/{todo_id}). -/
def delete_todo (db : Option DB) (todo_id : String) :
    Resp Bool × Option DB :=
  match db with
  | none => (.err 500 "Database not configured", none)
  | some st =>
    if ¬ isValidObjectId todo_id then (.err 400 "Invalid ID", some st)
    else
      let r := delete_one st.todos todo_id
      if r.1 = 0 then (.err 404 "Todo not found", some st)
      else (.ok true, some ⟨r.2⟩)

/-! Helper lemmas about the store operations. -/

theorem find_one_append_of_no_match (pre l : List Doc) (tid : String)
    (h : ∀ x ∈ pre, x.oid ≠ some tid) :
    find_one (pre ++ l) tid = find_one l tid := by
  induction pre with
  | nil => rfl
  | cons d rest ih =>
    have hd : d.oid ≠ some tid := h d (List.mem_cons_self d rest)
    simp only [List.cons_append, find_one, if_neg hd]
    exact ih (fun x hx => h x (List.mem_cons_of_mem d hx))

theorem find_one_cons_match (d : Doc) (rest : List Doc) (tid : String)
    (h : d.oid = some tid) :
    find_one (d :: rest) tid = some d := by
  simp only [find_one, if_pos h]

theorem applySet_oid (u : TodoUpdate) (now : Nat) (d : Doc) :
    (applySet u now d).oid = d.oid := rfl

theorem applySet_created_at (u : TodoUpdate) (now : Nat) (d : Doc) :
    (applySet u now d).created_at = d.created_at := rfl

theorem update_one_split (pre post : List Doc) (d0 : Doc) (tid : String)
    (u : TodoUpdate) (now : Nat)
    (hpre : ∀ x ∈ pre, x.oid ≠ some tid) (hd0 : d0.oid = some tid) :
    update_one (pre ++ d0 :: post) tid u now =
      (1, pre ++ applySet u now d0 :: post) := by
  induction pre with
  | nil => simp only [List.nil_append, update_one, if_pos hd0]
  | cons d rest ih =>
    have hd : d.oid ≠ some tid := hpre d (List.mem_cons_self d rest)
    have ih2 := ih (fun x hx => hpre x (List.mem_cons_of_mem d hx))
    simp only [List.cons_append, List.append_eq, update_one, if_neg hd, ih2]

theorem update_one_no_match (l : List Doc) (tid : String) (u : TodoUpdate)
    (now : Nat) (h : ∀ x ∈ l, x.oid ≠ some tid) :
    update_one l tid u now = (0, l) := by
  induction l with
  | nil => rfl
  | cons d rest ih =>
    have hd : d.oid ≠ some tid := h d (List.mem_cons_self d rest)
    simp only [update_one, if_neg hd,
      ih (fun x hx => h x (List.mem_cons_of_mem d hx))]

theorem delete_one_split (pre post : List Doc) (d0 : Doc) (tid : String)
    (hpre : ∀ x ∈ pre, x.oid ≠ some tid) (hd0 : d0.oid = some tid) :
    delete_one (pre ++ d0 :: post) tid = (1, pre ++ post) := by
  induction pre with
  | nil => simp only [List.nil_append, delete_one, if_pos hd0]
  | cons d rest ih =>
    have hd : d.oid ≠ some tid := hpre d (List.mem_cons_self d rest)
    have ih2 := ih (fun x hx => hpre x (List.mem_cons_of_mem d hx))
    simp only [List.cons_append, List.append_eq, delete_one, if_neg hd, ih2]

theorem delete_one_no_match (l : List Doc) (tid : String)
    (h : ∀ x ∈ l, x.oid ≠ some tid) :
    delete_one l tid = (0, l) := by
  induction l with
  | nil => rfl
  | cons d rest ih =>
    have hd : d.oid ≠ some tid := h d (List.mem_cons_self d rest)
    simp only [delete_one, if_neg hd,
      ih (fun x hx => h x (List.mem_cons_of_mem d hx))]

theorem length_of_valid_oid (tid : String) (h : isValidObjectId tid = true) :
    tid.length = 24 := by
  unfold isValidObjectId at h
  rw [Bool.and_eq_true] at h
  have h1 := h.1
  simpa using h1

theorem serialize_idOf_ne (x : Doc) (tid : String) (hx : x.oid ≠ some tid)
    (hlen : tid.length = 24) :
    Ser.idOf (serialize_todo (some x)) ≠ some tid := by
  unfold serialize_todo
  by_cases he : x.isEmptyDoc
  · simp [he, Ser.idOf]
  · simp only [he, if_false, Bool.false_eq_true, Ser.idOf]
    intro hcontra
    have hid : strOfOptId x.oid = tid := Option.some_injective _ hcontra
    cases hoid : x.oid with
    | none =>
      rw [hoid] at hid
      have : tid.length = 4 := by rw [← hid]; rfl
      omega
    | some s =>
      rw [hoid] at hid
      exact hx (by rw [hoid, show s = tid from hid])

/-! Theorems settling the claims. -/

/-- C7: when the database handle is absent, create, list, update and delete
all fail immediately with the server-side 500 "Database not configured"
error, and no store state exists to be touched. -/
theorem unconfigured_db_all_endpoints_500 (payload : TodoCreate)
    (u : TodoUpdate) (tid : String) (now : Nat) (newId : String) :
    create_todo none payload now newId = (.err 500 "Database not configured", none) ∧
    list_todos none = (.err 500 "Database not configured", none) ∧
    update_todo none tid u now = (.err 500 "Database not configured", none) ∧
    delete_todo none tid = (.err 500 "Database not configured", none) :=
  ⟨rfl, rfl, rfl, rfl⟩

/-- C5: with a configured store, an update or delete whose path identifier
does not parse as an ObjectId fails with the client error 400 "Invalid ID"
(not 404), and the store is unchanged. -/
theorem invalid_id_client_error (st : DB) (tid : String) (u : TodoUpdate)
    (now : Nat) (hinv : isValidObjectId tid = false) :
    update_todo (some st) tid u now = (.err 400 "Invalid ID", some st) ∧
    delete_todo (some st) tid = (.err 400 "Invalid ID", some st) := by
  constructor
  · simp only [update_todo, hinv, Bool.false_eq_true, not_false_eq_true,
      if_true]
  · simp only [delete_todo, hinv, Bool.false_eq_true, not_false_eq_true,
      if_true]

/-- Witness for C5: the identifier "not-an-id" is rejected with 400 by both
update and delete on a concrete store. -/
theorem invalid_id_client_error_witness :
    update_todo (some ⟨[]⟩) "not-an-id" {} 0 = (.err 400 "Invalid ID", some ⟨[]⟩) ∧
    delete_todo (some ⟨[]⟩) "not-an-id" = (.err 400 "Invalid ID", some ⟨[]⟩) :=
  invalid_id_client_error ⟨[]⟩ "not-an-id" {} 0 (by decide)

/-- C4: with a configured store, an update whose body after dropping unset
and null fields is empty fails with a client error 400 and leaves the store
(hence every stored entity and its `updated_at`) unchanged. -/
theorem empty_update_body_client_error (st : DB) (tid : String)
    (u : TodoUpdate) (now : Nat) (hemp : u.dumpIsEmpty = true) :
    ∃ msg, update_todo (some st) tid u now = (.err 400 msg, some st) := by
  by_cases hv : isValidObjectId tid = true
  · refine ⟨"No fields to update", ?_⟩
    simp only [update_todo, hv, not_true_eq_false, if_false, hemp, if_true]
  · have hv2 : isValidObjectId tid = false := by
      simpa using hv
    refine ⟨"Invalid ID", ?_⟩
    simp only [update_todo, hv2, Bool.false_eq_true, not_false_eq_true,
      if_true]

/-- Witness for C4: the all-unset update body on a concrete valid id and
store is rejected with 400 and the store is returned unchanged. -/
theorem empty_update_body_client_error_witness :
    ∃ msg, update_todo (some ⟨[]⟩) "0123456789abcdef01234567" {} 0 =
      (.err 400 msg, some ⟨[]⟩) :=
  empty_update_body_client_error ⟨[]⟩ "0123456789abcdef01234567" {} 0 (by decide)

/-- C9: on update and delete the database-configured check precedes all
request validation: with the handle absent, a syntactically invalid
identifier and an empty update body both receive the 500 configuration
error, not the 400 validation error. -/
theorem db_check_precedes_validation (tid tid2 : String) (u u2 : TodoUpdate)
    (now : Nat) (hinv : isValidObjectId tid = false)
    (hemp : u2.dumpIsEmpty = true) :
    update_todo none tid u now = (.err 500 "Database not configured", none) ∧
    delete_todo none tid = (.err 500 "Database not configured", none) ∧
    update_todo none tid2 u2 now = (.err 500 "Database not configured", none) :=
  ⟨rfl, rfl, rfl⟩

/-- Witness for C9: concrete invalid identifier and empty body still get
500 when the handle is absent. -/
theorem db_check_precedes_validation_witness :
    update_todo none "not-an-id" {} 0 = (.err 500 "Database not configured", none) ∧
    delete_todo none "not-an-id" = (.err 500 "Database not configured", none) ∧
    update_todo none "0123456789abcdef01234567" {} 0 =
      (.err 500 "Database not configured", none) :=
  db_check_precedes_validation "not-an-id" "0123456789abcdef01234567" {} {} 0
    (by decide) (by decide)

/-- C1: with a configured store and a fresh store-assigned id, a create
request whose body supplies only `title` returns an entity with
`completed = false`, `priority = 2`, the non-null assigned id rendered as a
string, a non-null `created_at`, and `description` and `updated_at` null;
the new document is appended to the collection. -/
theorem create_only_title_defaults (st : DB) (title : String) (now : Nat)
    (newId : String) (hfresh : ∀ d ∈ st.todos, d.oid ≠ some newId) :
    create_todo (some st) { title := title } now newId =
      (.ok (.obj { id := newId, title := some title, description := none,
                   completed := false, priority := 2, created_at := some now,
                   updated_at := none }),
       some ⟨st.todos ++ [{ oid := some newId, title := some title,
                            description := none, completed := some false,
                            priority := some 2, created_at := some now,
                            updated_at := none }]⟩) := by
  have hf : find_one (st.todos ++
      [{ oid := some newId, title := some title, description := none,
         completed := some false, priority := some 2, created_at := some now,
         updated_at := none }]) newId =
      some { oid := some newId, title := some title, description := none,
             completed := some false, priority := some 2,
             created_at := some now, updated_at := none } := by
    rw [find_one_append_of_no_match st.todos _ newId hfresh]
    exact find_one_cons_match _ _ _ rfl
  simp only [create_todo, create_document, hf, serialize_todo,
    Doc.isEmptyDoc, Option.isNone_some, Bool.false_and, Bool.false_eq_true,
    if_false, strOfOptId, Option.getD_some]

/-- Witness for C1: creating `{title: "Buy milk"}` in an empty store. -/
theorem create_only_title_defaults_witness :
    create_todo (some ⟨[]⟩) { title := "Buy milk" } 0
        "0123456789abcdef01234567" =
      (.ok (.obj { id := "0123456789abcdef01234567",
                   title := some "Buy milk", description := none,
                   completed := false, priority := 2, created_at := some 0,
                   updated_at := none }),
       some ⟨[{ oid := some "0123456789abcdef01234567",
                title := some "Buy milk", description := none,
                completed := some false, priority := some 2,
                created_at := some 0, updated_at := none }]⟩) := by
  have h := create_only_title_defaults ⟨[]⟩ "Buy milk" 0
    "0123456789abcdef01234567" (by intro d hd; cases hd)
  simpa using h

/-- C2: serializing any stored document (one carrying an `_id`) yields an
object whose `id` is the string form of `_id`, with `priority` defaulting
to 2 when missing, `completed` defaulting to `false` when missing, and all
other absent fields rendered as null. -/
theorem serialize_read_path_defaults (d : Doc) (s : String)
    (h : d.oid = some s) :
    ∃ t : SerTodo, serialize_todo (some d) = .obj t ∧ t.id = s ∧
      (d.priority = none → t.priority = 2) ∧
      (d.completed = none → t.completed = false) ∧
      (d.description = none → t.description = none) ∧
      (d.created_at = none → t.created_at = none) ∧
      (d.updated_at = none → t.updated_at = none) := by
  have hne : d.isEmptyDoc = false := by
    simp [Doc.isEmptyDoc, h]
  refine ⟨{ id := strOfOptId d.oid, title := d.title,
            description := d.description,
            completed := d.completed.getD false,
            priority := d.priority.getD 2, created_at := d.created_at,
            updated_at := d.updated_at }, ?_, ?_, ?_, ?_, ?_, ?_, ?_⟩
  · simp [serialize_todo, hne]
  · rw [h]; rfl
  · intro hp; simp [hp]
  · intro hc; simp [hc]
  · intro hd2; exact hd2
  · intro hca; exact hca
  · intro hu; exact hu

/-- Witness for C2: a document holding only an `_id`. -/
theorem serialize_read_path_defaults_witness :
    ∃ t : SerTodo,
      serialize_todo (some ⟨some "0123456789abcdef01234567", none, none,
        none, none, none, none⟩) = .obj t ∧
      t.id = "0123456789abcdef01234567" ∧
      ((none : Option Int) = none → t.priority = 2) ∧
      ((none : Option Bool) = none → t.completed = false) ∧
      ((none : Option String) = none → t.description = none) ∧
      ((none : Option Nat) = none → t.created_at = none) ∧
      ((none : Option Nat) = none → t.updated_at = none) :=
  serialize_read_path_defaults
    ⟨some "0123456789abcdef01234567", none, none, none, none, none, none⟩
    "0123456789abcdef01234567" rfl

/-- C3: a successful partial update replaces only the targeted document,
mutating exactly the fields supplied in the body plus `updated_at` (set to
the current time); `_id`, `created_at` and every unsupplied field are
unchanged, every other document is unchanged, and the post-update
serialized entity is returned. -/
theorem update_frame (st : DB) (tid : String) (u : TodoUpdate) (now : Nat)
    (pre post : List Doc) (d0 : Doc)
    (hvalid : isValidObjectId tid = true)
    (hne : u.dumpIsEmpty = false)
    (hsplit : st.todos = pre ++ d0 :: post)
    (hd0 : d0.oid = some tid)
    (hpre : ∀ x ∈ pre, x.oid ≠ some tid) :
    update_todo (some st) tid u now =
      (.ok (serialize_todo (some (applySet u now d0))),
       some ⟨pre ++ applySet u now d0 :: post⟩) ∧
    (applySet u now d0).oid = d0.oid ∧
    (applySet u now d0).created_at = d0.created_at ∧
    (applySet u now d0).updated_at = some now ∧
    (u.title = none → (applySet u now d0).title = d0.title) ∧
    (u.description = none → (applySet u now d0).description = d0.description) ∧
    (u.completed = none → (applySet u now d0).completed = d0.completed) ∧
    (u.priority = none → (applySet u now d0).priority = d0.priority) ∧
    (∀ v, u.title = some v → (applySet u now d0).title = some v) ∧
    (∀ v, u.description = some v → (applySet u now d0).description = some v) ∧
    (∀ v, u.completed = some v → (applySet u now d0).completed = some v) ∧
    (∀ v, u.priority = some v → (applySet u now d0).priority = some v) := by
  have hupd : update_one st.todos tid u now =
      (1, pre ++ applySet u now d0 :: post) := by
    rw [hsplit]; exact update_one_split pre post d0 tid u now hpre hd0
  have hfind : find_one (pre ++ applySet u now d0 :: post) tid =
      some (applySet u now d0) := by
    rw [find_one_append_of_no_match pre _ tid hpre]
    exact find_one_cons_match _ _ _ (by rw [applySet_oid]; exact hd0)
  refine ⟨?_, rfl, rfl, rfl, ?_, ?_, ?_, ?_, ?_, ?_, ?_, ?_⟩
  · simp only [update_todo, hvalid, not_true_eq_false, if_false, hne,
      Bool.false_eq_true, hupd, hfind, one_ne_zero]
  · intro hv; simp [applySet, hv]
  · intro hv; simp [applySet, hv]
  · intro hv; simp [applySet, hv]
  · intro hv; simp [applySet, hv]
  · intro v hv; simp [applySet, hv]
  · intro v hv; simp [applySet, hv]
  · intro v hv; simp [applySet, hv]
  · intro v hv; simp [applySet, hv]

/-- Witness for C3: updating `{completed: true}` on a store holding one
document. -/
theorem update_frame_witness :
    update_todo
        (some ⟨[{ oid := some "0123456789abcdef01234567",
                  title := some "Buy milk", description := none,
                  completed := some false, priority := some 2,
                  created_at := some 5, updated_at := none }]⟩)
        "0123456789abcdef01234567" { completed := some true } 7 =
      (.ok (.obj { id := "0123456789abcdef01234567",
                   title := some "Buy milk", description := none,
                   completed := true, priority := 2, created_at := some 5,
                   updated_at := some 7 }),
       some ⟨[{ oid := some "0123456789abcdef01234567",
                title := some "Buy milk", description := none,
                completed := some true, priority := some 2,
                created_at := some 5, updated_at := some 7 }]⟩) := by
  have h := (update_frame
    ⟨[{ oid := some "0123456789abcdef01234567", title := some "Buy milk",
        description := none, completed := some false, priority := some 2,
        created_at := some 5, updated_at := none }]⟩
    "0123456789abcdef01234567" { completed := some true } 7 [] []
    { oid := some "0123456789abcdef01234567", title := some "Buy milk",
      description := none, completed := some false, priority := some 2,
      created_at := some 5, updated_at := none }
    (by decide) (by decide) rfl rfl (by intro x hx; cases hx)).1
  simpa [applySet, serialize_todo, Doc.isEmptyDoc, strOfOptId] using h

/-- C6: with a configured store, an update (with a non-empty body) or a
delete targeting a well-formed identifier that matches no stored document
fails with 404 "Todo not found" — not the 400 of malformed identifiers —
and the store is unchanged. -/
theorem not_found_on_missing_id (st : DB) (tid : String) (u : TodoUpdate)
    (now : Nat) (hvalid : isValidObjectId tid = true)
    (hne : u.dumpIsEmpty = false)
    (hnomatch : ∀ x ∈ st.todos, x.oid ≠ some tid) :
    update_todo (some st) tid u now = (.err 404 "Todo not found", some st) ∧
    delete_todo (some st) tid = (.err 404 "Todo not found", some st) := by
  constructor
  · simp only [update_todo, hvalid, not_true_eq_false, if_false, hne,
      Bool.false_eq_true, update_one_no_match st.todos tid u now hnomatch,
      if_true]
  · simp only [delete_todo, hvalid, not_true_eq_false, if_false,
      delete_one_no_match st.todos tid hnomatch, if_true]

/-- Witness for C6: a valid identifier against the empty store. -/
theorem not_found_on_missing_id_witness :
    update_todo (some ⟨[]⟩) "0123456789abcdef01234567"
        { completed := some true } 0 =
      (.err 404 "Todo not found", some ⟨[]⟩) ∧
    delete_todo (some ⟨[]⟩) "0123456789abcdef01234567" =
      (.err 404 "Todo not found", some ⟨[]⟩) :=
  not_found_on_missing_id ⟨[]⟩ "0123456789abcdef01234567"
    { completed := some true } 0 (by decide) (by decide)
    (by intro x hx; cases hx)

/-- C8: deleting the unique document carrying a valid identifier returns
the success acknowledgment and removes it permanently: a subsequent list
response contains no entity with that identifier, and a second delete of
the same identifier fails with 404. -/
theorem delete_removes_permanently (st : DB) (tid : String)
    (pre post : List Doc) (d0 : Doc)
    (hvalid : isValidObjectId tid = true)
    (hsplit : st.todos = pre ++ d0 :: post)
    (hd0 : d0.oid = some tid)
    (hpre : ∀ x ∈ pre, x.oid ≠ some tid)
    (hpost : ∀ x ∈ post, x.oid ≠ some tid) :
    delete_todo (some st) tid = (.ok true, some ⟨pre ++ post⟩) ∧
    (∀ x ∈ pre ++ post, x.oid ≠ some tid) ∧
    (∃ rs, list_todos (some ⟨pre ++ post⟩) = (.ok rs, some ⟨pre ++ post⟩) ∧
      ∀ r ∈ rs, Ser.idOf r ≠ some tid) ∧
    delete_todo (some ⟨pre ++ post⟩) tid =
      (.err 404 "Todo not found", some ⟨pre ++ post⟩) := by
  have hrest : ∀ x ∈ pre ++ post, x.oid ≠ some tid := by
    intro x hx
    rcases List.mem_append.mp hx with hl | hr
    · exact hpre x hl
    · exact hpost x hr
  refine ⟨?_, hrest, ?_, ?_⟩
  · have hdel : delete_one st.todos tid = (1, pre ++ post) := by
      rw [hsplit]; exact delete_one_split pre post d0 tid hpre hd0
    simp only [delete_todo, hvalid, not_true_eq_false, if_false, hdel,
      one_ne_zero, if_false]
  · refine ⟨(pre ++ post).map (fun d => serialize_todo (some d)), rfl, ?_⟩
    intro r hr
    rcases List.mem_map.mp hr with ⟨x, hx, hxr⟩
    rw [← hxr]
    exact serialize_idOf_ne x tid (hrest x hx)
      (length_of_valid_oid tid hvalid)
  · simp only [delete_todo, hvalid, not_true_eq_false, if_false,
      delete_one_no_match (pre ++ post) tid hrest, if_true]

/-- Witness for C8: deleting the single document of a one-element store. -/
theorem delete_removes_permanently_witness :
    delete_todo (some ⟨[{ oid := some "0123456789abcdef01234567",
                          title := some "Buy milk", description := none,
                          completed := some false, priority := some 2,
                          created_at := some 5,
                          updated_at := none }]⟩)
        "0123456789abcdef01234567" =
      (.ok true, some ⟨[]⟩) ∧
    delete_todo (some ⟨[]⟩) "0123456789abcdef01234567" =
      (.err 404 "Todo not found", some ⟨[]⟩) := by
  have h := delete_removes_permanently
    ⟨[{ oid := some "0123456789abcdef01234567", title := some "Buy milk",
        description := none, completed := some false, priority := some 2,
        created_at := some 5, updated_at := none }]⟩
    "0123456789abcdef01234567" [] []
    { oid := some "0123456789abcdef01234567", title := some "Buy milk",
      description := none, completed := some false, priority := some 2,
      created_at := some 5, updated_at := none }
    (by decide) rfl rfl (by intro x hx; cases hx) (by intro x hx; cases hx)
  exact ⟨h.1, h.2.2.2⟩

/-- C10: the serializer returns the empty object on a missing document and
on an empty document, and the create and update endpoints return 200 with
exactly the serialization of their read-back — so a read-back that finds
nothing yields 200 with an empty object. -/
theorem empty_read_back_serializes_empty (st st2 : DB) (p : TodoCreate)
    (now now2 : Nat) (newId tid : String) (u : TodoUpdate)
    (hvalid : isValidObjectId tid = true)
    (hne : u.dumpIsEmpty = false)
    (hmatch : (update_one st2.todos tid u now2).1 ≠ 0) :
    serialize_todo none = Ser.empty ∧
    serialize_todo (some ⟨none, none, none, none, none, none, none⟩) =
      Ser.empty ∧
    (create_todo (some st) p now newId).1 =
      .ok (serialize_todo (find_one (create_document st.todos p now newId).2
        (create_document st.todos p now newId).1)) ∧
    (update_todo (some st2) tid u now2).1 =
      .ok (serialize_todo (find_one (update_one st2.todos tid u now2).2 tid)) := by
  refine ⟨rfl, rfl, rfl, ?_⟩
  simp only [update_todo, hvalid, not_true_eq_false, if_false, hne,
    Bool.false_eq_true, if_neg hmatch]

/-- Witness for C10: a successful update on a one-element store. -/
theorem empty_read_back_serializes_empty_witness :
    serialize_todo none = Ser.empty ∧
    serialize_todo (some ⟨none, none, none, none, none, none, none⟩) =
      Ser.empty ∧
    (create_todo (some ⟨[]⟩) { title := "Buy milk" } 0
        "0123456789abcdef01234567").1 =
      .ok (serialize_todo (find_one
        (create_document [] { title := "Buy milk" } 0
          "0123456789abcdef01234567").2
        (create_document [] { title := "Buy milk" } 0
          "0123456789abcdef01234567").1)) ∧
    (update_todo (some ⟨[{ oid := some "0123456789abcdef01234567",
                           title := some "Buy milk", description := none,
                           completed := some false, priority := some 2,
                           created_at := some 5,
                           updated_at := none }]⟩)
        "0123456789abcdef01234567" { completed := some true } 7).1 =
      .ok (serialize_todo (find_one
        (update_one [{ oid := some "0123456789abcdef01234567",
                       title := some "Buy milk", description := none,
                       completed := some false, priority := some 2,
                       created_at := some 5, updated_at := none }]
          "0123456789abcdef01234567" { completed := some true } 7).2
        "0123456789abcdef01234567")) :=
  empty_read_back_serializes_empty ⟨[]⟩
    ⟨[{ oid := some "0123456789abcdef01234567", title := some "Buy milk",
        description := none, completed := some false, priority := some 2,
        created_at := some 5, updated_at := none }]⟩
    { title := "Buy milk" } 0 7 "0123456789abcdef01234567"
    "0123456789abcdef01234567" { completed := some true }
    (by decide) (by decide) (by decide)

end TodoApp
